import Mathlib

/-!
# Verification of the azure_automl FastAPI backend

Shallow embedding of the parts of the `automlapi` package that the checked
claims are about, together with theorems settling each claim.

Conventions of the embedding:

* Python dictionaries that are iterated in insertion order are modelled as
  association lists (`List (String × _)`).
* Python strings are Lean `String`s; where character-level reasoning is
  needed (`str.split`, slicing) we work on `List Char`, which matches
  Python's code-point view of `str`.
* Python `float` values that only flow through comparisons and decimal
  formatting are modelled as `ℚ` (every finite double is a rational, and
  comparison and `%.4f`-formatting factor through the rational value).
* Fallible calls (Azure SDK calls, database commits, `float(...)`,
  `json.loads`) are modelled as `Except`/`Option` values or oracles passed
  in as arguments, so routes become total functions of the outcome of
  their external calls.
* `raise HTTPException(status, detail)` and plain exception propagation
  are modelled by explicit result constructors.
-/

namespace AutoML

/-! ## HTTP outcomes -/

/-- Outcome of a route handler: a successful value, an
`HTTPException(status, detail)`, or an uncaught Python exception that
escapes the handler. -/
inductive RouteResult (α : Type) where
  | ok (value : α)
  | httpError (status : Nat) (detail : String)
  | uncaught (msg : String)
  deriving Repr, DecidableEq

/-- The HTTP status of a route outcome, if it is an `HTTPException`. -/
def RouteResult.statusOf {α : Type} : RouteResult α → Option Nat
  | .ok _ => none
  | .httpError s _ => some s
  | .uncaught _ => none

/-! ## Auth layer (`automlapi/auth.py`)

`UserRole`, `UserInfo.has_role` and the `require_role` decorator. -/

/-- The `UserRole` enum of `auth.py`. -/
inductive UserRole where
  | USER
  | MAINTAINER
  | ADMIN
  deriving Repr, DecidableEq

/-- The `role_hierarchy` dict built inside `UserInfo.has_role`:
`{UserRole.USER: 1, UserRole.MAINTAINER: 2, UserRole.ADMIN: 3}`.
`role_hierarchy.get(r, 0)` always finds its key, so the lookup is total. -/
def roleHierarchy : UserRole → Nat
  | .USER => 1
  | .MAINTAINER => 2
  | .ADMIN => 3

/-- The string value of a `UserRole` member (`required_role.value`). -/
def UserRole.value : UserRole → String
  | .USER => "USER"
  | .MAINTAINER => "MAINTAINER"
  | .ADMIN => "ADMIN"

/-- `UserRole(s)` on a string: returns the member whose value is `s`,
raises `ValueError` (modelled as `none`) otherwise. -/
def userRoleOfString : String → Option UserRole
  | "USER" => some .USER
  | "MAINTAINER" => some .MAINTAINER
  | "ADMIN" => some .ADMIN
  | _ => none

/-- `UserInfo`: `user_id` plus the role string resolved from the
user/role tables (`None` when no matching user or role row exists). -/
structure UserInfo where
  userId : String
  role : Option String
  deriving Repr, DecidableEq

/-- `UserInfo.has_role`.  `if not self.role: return False` is true both
for `None` and for the empty string (falsy).  Otherwise
`role_hierarchy.get(UserRole(self.role), 0)` converts the string to an
enum member — which raises `ValueError` for an unrecognized string — and
the check is `user_level >= required_level`. -/
def hasRole (u : UserInfo) (required : UserRole) : Except String Bool :=
  match u.role with
  | none => .ok false
  | some r =>
    if r = "" then .ok false
    else
      match userRoleOfString r with
      | none => .error "ValueError: invalid UserRole"
      | some ur => .ok (decide (roleHierarchy ur ≥ roleHierarchy required))

/-- The body of the wrapper produced by `require_role(required_role)`:
no `UserInfo` among the kwargs gives 401; a user failing `has_role`
gives 403; otherwise the wrapped route function runs (`.ok ()`).
An exception escaping `has_role` propagates. -/
def requireRole (required : UserRole) (currentUser : Option UserInfo) :
    RouteResult Unit :=
  match currentUser with
  | none => .httpError 401 "Authentication required"
  | some u =>
    match hasRole u required with
    | .error e => .uncaught e
    | .ok false =>
        .httpError 403
          ("Insufficient privileges. Required role: " ++ required.value ++
            " or higher")
    | .ok true => .ok ()

/-! ## Model-reference parsing (`routes/deploy.py`,
`create_or_update_model_record`)

```python
model_name, model_version = (
    model_reference.split(":") if ":" in model_reference
    else (model_reference, "1")
)
```

`str.split(":")` is modelled character-exactly on `List Char`; tuple
unpacking into two names raises `ValueError` unless the split yields
exactly two parts. -/

/-- Python `s.split(":")` on the code points of `s`. -/
def splitColon : List Char → List (List Char)
  | [] => [[]]
  | c :: cs =>
    if c = ':' then [] :: splitColon cs
    else
      match splitColon cs with
      | [] => [[c]]
      | p :: ps => (c :: p) :: ps

/-- Inverse view of `splitColon`: rejoin parts with `':'` (used only to
state what the parts of a split are). -/
def joinColon : List (List Char) → List Char
  | [] => []
  | [p] => p
  | p :: q :: ps => p ++ ':' :: joinColon (q :: ps)

/-- The name/version parsing step of `create_or_update_model_record`.
`":" in model_reference` selects the split branch; unpacking the split
into `(model_name, model_version)` raises `ValueError` unless it has
exactly two elements. -/
def parseModelReference (ref : List Char) : Except String (List Char × List Char) :=
  if ref.contains ':' then
    match splitColon ref with
    | [a, b] => .ok (a, b)
    | _ => .error "ValueError: not exactly two values to unpack"
  else .ok (ref, ['1'])

/-! ## Experiment service (`services/experiment_service.py`)

Score extraction from child-job properties and best-job selection. -/

/-- A value in a job's free-form `properties` dict.  Only two aspects of
a property value are observed by the code: `float(value)` (which may
raise, modelled as `Option ℚ`) and `str(value)`. -/
structure PropVal where
  asFloat : Option ℚ
  asString : String
  deriving Repr, DecidableEq

/-- An Azure ML child job as observed by `_extract_job_performance_info`:
`safe_getattr` probes for `name`, `status`, `type` and the ordered
`properties` dict. -/
structure Job where
  name : Option String
  status : Option String
  jobType : Option String
  properties : List (String × PropVal)
  deriving Repr, DecidableEq

/-- The `job_info` dict built by `_extract_job_performance_info`. -/
structure JobInfo where
  name : Option String
  status : Option String
  algorithm : String
  score : Option ℚ
  metrics : List (String × ℚ)
  jobType : Option String
  deriving Repr, DecidableEq

/-- Whether `pat` occurs at the start of `l`. -/
def charsStartWith : List Char → List Char → Bool
  | _, [] => true
  | [], _ :: _ => false
  | c :: cs, p :: ps => c = p && charsStartWith cs ps

/-- Whether `pat` occurs contiguously anywhere in `l` (Python `pat in s`). -/
def charsHaveSub : List Char → List Char → Bool
  | [], pat => pat.isEmpty
  | c :: cs, pat => charsStartWith (c :: cs) pat || charsHaveSub cs pat

/-- `any(metric in key_lower for metric in [...])`: membership test of a
substring pattern in a (lowercased) key. -/
def strHasSub (s pat : String) : Bool :=
  charsHaveSub s.toList pat.toList

/-- Python `key.lower()` (character-wise lowercasing; the probed keys
are ASCII). -/
def strLower (s : String) : String :=
  (s.toList.map Char.toLower).asString

/-- One iteration of the `for key, value in properties.items()` loop of
`_extract_job_performance_info`: the primary-score block, the algorithm
block, then the metrics block (which can also set the score when it is
still `None` and the key is `accuracy`/`auc`/`roc_auc`). -/
def scanProperty (info : JobInfo) (kv : String × PropVal) : JobInfo :=
  let key := kv.1
  let value := kv.2
  let keyLower := strLower key
  let info :=
    if keyLower ∈ ["score", "accuracy", "primary_metric_score"] then
      match value.asFloat with
      | some f => { info with score := some f }
      | none => info
    else info
  let info :=
    if keyLower ∈ ["algorithm", "model_name", "estimator"] then
      { info with algorithm := value.asString }
    else info
  if ["accuracy", "precision", "recall", "f1", "auc"].any
      (fun metric => strHasSub keyLower metric) then
    match value.asFloat with
    | some f =>
      let info := { info with metrics := info.metrics ++ [(key, f)] }
      if info.score = none ∧ keyLower ∈ ["accuracy", "auc", "roc_auc"] then
        { info with score := some f }
      else info
    | none => info
  else info

/-- `_extract_job_performance_info`. -/
def extractJobPerformanceInfo (job : Job) : JobInfo :=
  job.properties.foldl scanProperty
    { name := job.name
      status := job.status
      algorithm := "unknown"
      score := none
      metrics := []
      jobType := job.jobType }

/-- The key of `jobs_with_scores.sort(key=lambda x: x.get("score", 0), ...)`. -/
def scoreKey (info : JobInfo) : ℚ :=
  info.score.getD 0

/-- `get_child_jobs_with_scores` on an already-listed job list: keep the
jobs whose extracted score is not `None`, then sort by score, highest
first.  Python's `list.sort` is stable and `reverse=True` preserves the
order of equal keys, so the result is the unique stable descending
ordering; `List.insertionSort` with the key relation
`scoreKey b ≤ scoreKey a` computes exactly that ordering. -/
def getChildJobsWithScores (childJobs : List Job) : List JobInfo :=
  let jobsWithScores :=
    (childJobs.map extractJobPerformanceInfo).filter (fun i => i.score.isSome)
  jobsWithScores.insertionSort (fun a b => scoreKey b ≤ scoreKey a)

/-- The pre-sort filtered list (`jobs_with_scores` before the `.sort`). -/
def scoredJobs (childJobs : List Job) : List JobInfo :=
  (childJobs.map extractJobPerformanceInfo).filter (fun i => i.score.isSome)

/-- The selection step of
`DeploymentService.deploy_best_model_from_experiment`: raise when
`jobs_with_scores` is empty, else take `jobs_with_scores[0]`. -/
def selectBestJob (childJobs : List Job) : Option JobInfo :=
  (getChildJobsWithScores childJobs).head?

/-- The mocked job list of the spec's example: three child jobs whose
`score` properties parse to 0.7, 0.9 and 0.8. -/
def exampleJobs : List Job :=
  [{ name := some "job-a", status := some "Completed",
     jobType := some "automl",
     properties := [("score", { asFloat := some 0.7, asString := "0.7" })] },
   { name := some "job-b", status := some "Completed",
     jobType := some "automl",
     properties := [("score", { asFloat := some 0.9, asString := "0.9" })] },
   { name := some "job-c", status := some "Completed",
     jobType := some "automl",
     properties := [("score", { asFloat := some 0.8, asString := "0.8" })] }]

/-- A single-job list used to instantiate the selection theorem on a
concrete input. -/
def soloJob : Job :=
  { name := some "job-a", status := some "Completed",
    jobType := some "automl",
    properties := [("score", { asFloat := some 0.7, asString := "0.7" })] }

/-- The `job_info` extracted from `soloJob`. -/
def soloInfo : JobInfo :=
  ⟨some "job-a", some "Completed", "unknown", some 0.7, [], some "automl"⟩

/-! ## Python values and dictionaries used by the tag/metadata helpers -/

/-- A Python value observed by the tag builders.  The code branches on
`isinstance(value, float)`; every other aspect of a value reaches the
tags only through `str(value)`.  A float carries its exact rational
value (every finite double is rational) together with its `str()`
rendering; a non-float value is represented by its `str()` rendering. -/
inductive MetaVal where
  | flt (val : ℚ) (pyRepr : String)
  | obj (pyRepr : String)
  deriving Repr, DecidableEq

/-- `str(value)`. -/
def MetaVal.pyStr : MetaVal → String
  | .flt _ r => r
  | .obj r => r

/-- `isinstance(value, float)`. -/
def MetaVal.isFloat : MetaVal → Bool
  | .flt _ _ => true
  | .obj _ => false

/-- Python truthiness of an optional value as used in
`format_model_description` (`None`, `0.0` and `""` are falsy). -/
def pyTruthy : Option MetaVal → Bool
  | none => false
  | some (.flt q _) => q ≠ 0
  | some (.obj r) => r ≠ ""

/-- A Python dict with `Option MetaVal` values (`None` is storable), in
insertion order. -/
abbrev PyDict := List (String × Option MetaVal)

/-- Raw dict lookup: `none` when the key is absent, `some v` (where `v`
may itself be the stored `None`) when present. -/
def dictFind (k : String) : PyDict → Option (Option MetaVal)
  | [] => none
  | (k', v) :: rest => if k' = k then some v else dictFind k rest

/-- Python `d.get(k)`: `None` both for an absent key and a stored `None`. -/
def pyGet (d : PyDict) (k : String) : Option MetaVal :=
  (dictFind k d).getD none

/-- Python `s[:256]`, on code points. -/
def pyTrunc256 (s : String) : String :=
  (s.toList.take 256).asString

/-- `tags[k] = v` on an insertion-ordered string-to-string dict:
overwriting keeps the key's position, a new key is appended. -/
def tagSet (k v : String) : List (String × String) → List (String × String)
  | [] => [(k, v)]
  | (k', v') :: rest => if k' = k then (k', v) :: rest else (k', v') :: tagSet k v rest

/-! ### `%.4f` formatting

`f"{value:.4f}"` renders the decimal expansion of the (rational) float
value rounded to four places with round-half-to-even, without any
truncation.  (The repository compares the result only by length.) -/

/-- Round to the nearest integer, ties to the even neighbour. -/
def roundHalfEven (q : ℚ) : ℤ :=
  if Int.fract q < 1/2 then ⌊q⌋
  else if 1/2 < Int.fract q then ⌊q⌋ + 1
  else if Even ⌊q⌋ then ⌊q⌋ else ⌊q⌋ + 1

/-- Decimal digits of `m` left-padded with zeros to width 4
(`m < 10000` in every use). -/
def pad4 (m : ℕ) : String :=
  (List.replicate (4 - (Nat.repr m).length) '0').asString ++ Nat.repr m

/-- `f"{q:.4f}"`: sign, integer digits, a dot and exactly four
fractional digits of the half-even rounding of `|q| * 10^4`. -/
def formatFixed4 (q : ℚ) : String :=
  let n : ℕ := (roundHalfEven (|q| * 10000)).toNat
  (if q < 0 then "-" else "") ++ Nat.repr (n / 10000) ++ "." ++ pad4 (n % 10000)

/-! ## Tag builders (`services/azure_client.py` and
`services/model_service.py`) -/

/-- `AzureMLClient.create_tags(**kwargs)`: two base tags, then each
kwarg whose value is not `None` is added (as `str(value)[:256]`) while
the dict still has fewer than 10 entries.  `now` is `int(time.time())`
at the call. -/
def createTags (now : ℕ) (kwargs : List (String × Option MetaVal)) :
    List (String × String) :=
  let tags := [("created_by", "automl_service"),
               ("deployment_timestamp", Nat.repr now)]
  kwargs.foldl
    (fun tags kv =>
      match kv.2 with
      | none => tags
      | some v =>
        if tags.length < 10 then tagSet kv.1 (pyTrunc256 v.pyStr) tags else tags)
    tags

/-- The `important_fields` list of
`ModelService.create_model_tags_from_metadata`. -/
def importantFields (parentMetadata modelMetadata : PyDict) :
    List (String × Option MetaVal) :=
  [("task_type", pyGet parentMetadata "task_type"),
   ("primary_metric", pyGet parentMetadata "primary_metric"),
   ("dataset_name", pyGet parentMetadata "dataset_name"),
   ("target_column", pyGet parentMetadata "target_column"),
   ("algorithm", pyGet modelMetadata "algorithm"),
   ("best_score", pyGet modelMetadata "best_score"),
   ("job_status", pyGet parentMetadata "job_status"),
   ("source_experiment", pyGet parentMetadata "experiment_name")]

/-- `ModelService.create_model_tags_from_metadata`: base tags through
`create_tags(deployment_timestamp=...)`, then each important field whose
value is not `None` is added while the dict has fewer than 10 entries —
floats formatted as `f"{value:.4f}"` (no truncation), all other values
as `str(value)[:256]`.  `nowBase` and `nowCreate` are the two
`int(time.time())` calls. -/
def createModelTagsFromMetadata (nowBase nowCreate : ℕ)
    (parentMetadata modelMetadata : PyDict) : List (String × String) :=
  let tags := createTags nowCreate
    [("deployment_timestamp", some (.obj (Nat.repr nowBase)))]
  (importantFields parentMetadata modelMetadata).foldl
    (fun tags kv =>
      match kv.2 with
      | none => tags
      | some v =>
        if tags.length < 10 then
          tagSet kv.1
            (match v with
             | .flt q _ => formatFixed4 q
             | .obj r => pyTrunc256 r)
            tags
        else tags)
    tags

/-- `ModelService.format_model_description`.  The `best_score` segment
formats the value with `:.4f`, which raises `ValueError` when the stored
value is not numeric; the result is therefore an `Except`. -/
def formatModelDescription (parentMetadata modelMetadata : PyDict) :
    Except String String := do
  let descParts := ["AutoML model from experiment '" ++
    (match dictFind "experiment_name" parentMetadata with
     | none => "unknown"
     | some none => "None"
     | some (some v) => v.pyStr) ++ "'"]
  let descParts := if pyTruthy (pyGet parentMetadata "task_type") then
      descParts ++ ["Task: " ++ ((pyGet parentMetadata "task_type").map
        MetaVal.pyStr).getD ""]
    else descParts
  let descParts := if pyTruthy (pyGet modelMetadata "algorithm") then
      descParts ++ ["Algorithm: " ++ ((pyGet modelMetadata "algorithm").map
        MetaVal.pyStr).getD ""]
    else descParts
  let descParts ←
    if pyTruthy (pyGet modelMetadata "best_score") then
      match pyGet modelMetadata "best_score" with
      | some (.flt q _) =>
        pure (descParts ++ [(match dictFind "primary_metric" parentMetadata with
          | none => "score"
          | some none => "None"
          | some (some v) => v.pyStr) ++ ": " ++ formatFixed4 q])
      | _ => throw "ValueError: unknown format code f"
    else pure descParts
  let descParts := if pyTruthy (pyGet parentMetadata "dataset_name") then
      descParts ++ ["Dataset: " ++ ((pyGet parentMetadata "dataset_name").map
        MetaVal.pyStr).getD ""]
    else descParts
  let descParts := if pyTruthy (pyGet parentMetadata "target_column") then
      descParts ++ ["Target: " ++ ((pyGet parentMetadata "target_column").map
        MetaVal.pyStr).getD ""]
    else descParts
  pure (String.intercalate " | " descParts)

/-! ## Model registration (`services/model_service.py`,
`ModelService.register_model_from_job`) with the URI builder of
`services/azure_client.py`. -/

/-- Azure workspace coordinates from `settings`. -/
structure AzureSettings where
  subscriptionId : String
  resourceGroup : String
  workspace : String
  deriving Repr, DecidableEq

/-- `AzureMLClient.build_model_uri`. -/
def buildModelUri (st : AzureSettings) (jobName : String)
    (pathSuffix : String := "") : String :=
  "azureml://subscriptions/" ++ st.subscriptionId ++ "/resourceGroups/" ++
    st.resourceGroup ++ "/workspaces/" ++ st.workspace ++
    "/datastores/workspaceartifactstore/paths/ExperimentRun/dcid." ++
    jobName ++ "/outputs" ++ pathSuffix

/-- The `Model(...)` entity passed to `models.create_or_update`. -/
structure ModelSpec where
  name : String
  path : String
  description : String
  type : String
  tags : List (String × String)
  deriving Repr, DecidableEq

/-- What a successful `models.create_or_update` returns (the fields the
code reads). -/
structure RegisteredModel where
  name : String
  version : String
  deriving Repr, DecidableEq

/-- `AzureMLClient.handle_azure_operation`: wrap any failure of the
operation into `AzureMLClientError("Azure ML operation '...' failed: ...")`. -/
def handleAzureOperation (opName : String)
    (result : Except String RegisteredModel) : Except String RegisteredModel :=
  match result with
  | .ok r => .ok r
  | .error e => .error ("Azure ML operation '" ++ opName ++ "' failed: " ++ e)

/-- The first candidate `Model(...)`: the MLflow-model subpath of the
job's outputs, registered as an `mlflow_model`. -/
def mlflowModelSpec (st : AzureSettings) (jobName modelName : String)
    (tags : List (String × String)) (description : String) : ModelSpec :=
  { name := modelName
    path := buildModelUri st jobName "/mlflow-model"
    description := description
    type := "mlflow_model"
    tags := tags }

/-- The second candidate `Model(...)`: the whole outputs directory,
registered as a `custom_model` with a `contains_mlflow_model` tag. -/
def outputsModelSpec (st : AzureSettings) (jobName modelName : String)
    (tags : List (String × String)) (description : String) : ModelSpec :=
  { name := modelName
    path := buildModelUri st jobName
    description := description ++ " - complete outputs with MLflow artifacts"
    type := "custom_model"
    tags := tagSet "contains_mlflow_model" "true" tags }

/-- `ModelService.register_model_from_job`, parameterized by the outcome
of `self.client.models.create_or_update` on each candidate `Model`
(`reg`).  Returns the result together with the list of candidate
artifact paths on which a registration call was attempted, in order. -/
def registerModelFromJob (st : AzureSettings)
    (reg : ModelSpec → Except String RegisteredModel)
    (nowBase nowCreate : ℕ)
    (jobName modelName : String)
    (parentMetadata bestModelMetadata : PyDict) :
    Except String String × List String :=
  let tags := createModelTagsFromMetadata nowBase nowCreate
    parentMetadata bestModelMetadata
  match formatModelDescription parentMetadata bestModelMetadata with
  | .error e => (.error e, [])
  | .ok description =>
    let path1 := buildModelUri st jobName "/mlflow-model"
    match handleAzureOperation ("register_mlflow_model_" ++ modelName)
        (reg (mlflowModelSpec st jobName modelName tags description)) with
    | .ok rm => (.ok (rm.name ++ ":" ++ rm.version), [path1])
    | .error e1 =>
      let err1 := "MLflow model registration failed: " ++ e1
      let path2 := buildModelUri st jobName
      match handleAzureOperation ("register_custom_model_" ++ modelName)
          (reg (outputsModelSpec st jobName modelName tags description)) with
      | .ok rm => (.ok (rm.name ++ ":" ++ rm.version), [path1, path2])
      | .error e2 =>
        let err2 := "Custom model registration failed: " ++ e2
        (.error ("Could not register model from job " ++ jobName ++
          ". All registration methods failed: " ++ err1 ++ "; " ++ err2),
         [path1, path2])

/-! ## Parent-job metadata (`services/experiment_service.py`,
`ExperimentService.extract_parent_job_metadata`) -/

/-- `task.training_data` as probed by `safe_getattr`. -/
structure TrainingData where
  path : Option String
  name : Option String
  deriving Repr, DecidableEq

/-- `parent_job.task` as probed by `safe_getattr`. -/
structure TaskInfo where
  type : Option String
  primaryMetric : Option String
  targetColumnName : Option String
  trainingData : Option TrainingData
  deriving Repr, DecidableEq

/-- `parent_job.limits` as probed by `safe_getattr`. -/
structure JobLimits where
  maxTrials : Option Int
  timeoutMinutes : Option Int
  enableEarlyTermination : Option Bool
  deriving Repr, DecidableEq

/-- The parent job as probed by `extract_parent_job_metadata`
(`safe_getattr` turns any missing attribute into `None`). -/
structure ParentJob where
  status : Option String
  task : Option TaskInfo
  limits : Option JobLimits
  compute : Option String
  deriving Repr, DecidableEq

/-- `metadata[k] = v` / `metadata.update({...})` entry on the
insertion-ordered metadata dict. -/
def dictSet (k : String) (v : Option MetaVal) : PyDict → PyDict
  | [] => [(k, v)]
  | (k', v') :: rest =>
    if k' = k then (k', v) :: rest else (k', v') :: dictSet k v rest

/-- `ExperimentService.extract_parent_job_metadata`, parameterized by
the outcome of `self.client.jobs.get(parent_job_name)`.  The whole body
is wrapped in `try/except`, and the except branch returns a minimal
dict; the function never raises. -/
def extractParentJobMetadata (parentJobName : String)
    (fetch : Except String ParentJob) : PyDict :=
  match fetch with
  | .error e =>
    [("experiment_name", some (.obj parentJobName)),
     ("task_type", some (.obj "unknown")),
     ("error", some (.obj e))]
  | .ok parentJob =>
    let metadata : PyDict :=
      [("experiment_name", some (.obj parentJobName)),
       ("task_type", none),
       ("primary_metric", none),
       ("dataset_name", none),
       ("target_column", none),
       ("training_data_path", none),
       ("compute_target", none),
       ("job_status", parentJob.status.map .obj)]
    let metadata :=
      match parentJob.task with
      | none => metadata
      | some task =>
        let metadata := dictSet "task_type" (task.type.map .obj) metadata
        let metadata :=
          dictSet "primary_metric" (task.primaryMetric.map .obj) metadata
        let metadata :=
          dictSet "target_column" (task.targetColumnName.map .obj) metadata
        match task.trainingData with
        | none => metadata
        | some td =>
          let metadata :=
            dictSet "training_data_path" (td.path.map .obj) metadata
          dictSet "dataset_name" (td.name.map .obj) metadata
    let metadata :=
      match parentJob.limits with
      | none => metadata
      | some limits =>
        let metadata := dictSet "max_trials"
          (limits.maxTrials.map (fun n => .obj (toString n))) metadata
        let metadata := dictSet "timeout_minutes"
          (limits.timeoutMinutes.map (fun n => .obj (toString n))) metadata
        dictSet "enable_early_termination"
          (limits.enableEarlyTermination.map
            (fun b => .obj (if b then "True" else "False"))) metadata
    dictSet "compute_target" (parentJob.compute.map .obj) metadata

/-! ## Traffic-update routes (`routes/deploy.py` `update_deployment_traffic`
and `routes/endpoints.py` `update_traffic`) -/

/-- An exception live inside the outer `try` of
`update_deployment_traffic`: either an `HTTPException` raised by the
body or an exception bubbling out of the service call. -/
inductive PyExc where
  | http (status : Nat) (detail : String)
  | exc (msg : String)
  deriving Repr, DecidableEq

/-- `str(e)` on such an exception (Starlette renders an `HTTPException`
as `"{status_code}: {detail}"`). -/
def PyExc.pyStr : PyExc → String
  | .http s d => Nat.repr s ++ ": " ++ d
  | .exc m => m

/-- The response dict of a successful traffic update. -/
structure TrafficResponse where
  endpointName : String
  trafficAllocation : List (String × Int)
  message : String
  deriving Repr, DecidableEq

/-- `POST /deploy/{endpoint_name}/traffic` (`update_deployment_traffic`).
The body validates `sum(traffic_allocation.values()) == 100` and raises
`HTTPException(400, ...)` otherwise, then calls
`service.update_endpoint_traffic`; the whole body sits inside
`try: ... except Exception as e: raise HTTPException(500, str(e))`,
which also catches the 400 just raised. -/
def updateDeploymentTraffic (endpointName : String)
    (trafficAllocation : List (String × Int))
    (svcUpdate : Except String (List (String × Int))) :
    RouteResult TrafficResponse :=
  let body : Except PyExc TrafficResponse :=
    let totalTraffic := (trafficAllocation.map Prod.snd).sum
    if totalTraffic ≠ 100 then
      .error (.http 400
        ("Traffic allocation must sum to 100, got " ++ toString totalTraffic))
    else
      match svcUpdate with
      | .error m => .error (.exc m)
      | .ok updatedTraffic =>
        .ok { endpointName := endpointName
              trafficAllocation := updatedTraffic
              message := "Traffic allocation updated successfully" }
  match body with
  | .ok r => .ok r
  | .error e => .httpError 500 e.pyStr

/-- The endpoint row fields read by `update_traffic`. -/
structure EndpointRecord where
  azureEndpointName : Option String
  deriving Repr, DecidableEq

/-- The response dict of `update_traffic` in `routes/endpoints.py`. -/
structure TrafficUpdateReply where
  message : String
  traffic : List (String × Int)
  deriving Repr, DecidableEq

/-- `PUT /endpoints/{endpoint_id}/traffic` (`update_traffic` in
`routes/endpoints.py`): 404 when the row is missing, 400 when the row
has no Azure endpoint name or the form field is not valid JSON, 500 when
the service call fails — and no check at all on the traffic sum. -/
def updateTraffic (record : Option EndpointRecord)
    (parsedTraffic : Except String (List (String × Int)))
    (svcUpdate : List (String × Int) → Except String (List (String × Int))) :
    RouteResult TrafficUpdateReply :=
  match record with
  | none => .httpError 404 "Endpoint not found"
  | some r =>
    match r.azureEndpointName with
    | none => .httpError 400 "Endpoint is not linked to Azure ML"
    | some _ =>
      match parsedTraffic with
      | .error _ => .httpError 400 "Invalid JSON format for traffic allocation"
      | .ok traffic =>
        match svcUpdate traffic with
        | .error m => .httpError 500 ("Failed to update traffic: " ++ m)
        | .ok updatedTraffic =>
          .ok { message := "Traffic allocation updated successfully"
                traffic := updatedTraffic }

/-! ## Deployment route persistence tail (`routes/deploy.py`,
`deploy_best_model_from_experiment`, after the Azure-side deployment
succeeded) -/

/-- The fields of the service's `deployment_result` dict read by the
route tail. -/
structure DeploymentResult where
  modelReference : String
  endpointName : String
  deploymentName : String
  endpointUrl : String
  modelScore : ℚ
  algorithm : String
  deploymentStatus : String
  deriving Repr, DecidableEq

/-- The `DeploymentResponse` schema. -/
structure DeploymentResponse where
  deploymentId : String
  modelId : String
  endpointId : String
  endpointUrl : String
  deploymentStatus : String
  message : String
  deriving Repr, DecidableEq

/-- Side effects the persistence block can perform.  The route has no
code path that deletes or modifies the just-created Azure deployment;
`azureUndoDeployment` exists in the model so that its absence from every
trace is a meaningful statement. -/
inductive PersistAction where
  | dbFlush
  | dbCommit
  | dbRollback
  | azureUndoDeployment
  deriving Repr, DecidableEq

/-- What the database gave back when the three rows were persisted
successfully. -/
structure PersistedRows where
  modelId : String
  endpointId : String
  deploymentId : String
  modelName : String
  modelVersion : String
  deriving Repr, DecidableEq

/-- `UUID(str(experiment_id)[:32].replace("-", d))`: the placeholder ids
of the warning response. -/
def placeholderUuid (experimentId : String) (d : Char) : String :=
  ((experimentId.toList.take 32).map (fun c => if c = '-' then d else c)).asString

/-- The persistence tail of `deploy_best_model_from_experiment`: the
inner `try` creates/updates the Model, Endpoint and Deployment rows and
commits; `except Exception as db_error` logs, rolls the session back and
returns a success `DeploymentResponse` whose message carries the
database failure — it neither re-raises nor touches Azure. -/
def deployRoutePersist (experimentId : String) (res : DeploymentResult)
    (dbOutcome : Except String PersistedRows) :
    RouteResult DeploymentResponse × List PersistAction :=
  match dbOutcome with
  | .ok rows =>
    (.ok { deploymentId := rows.deploymentId
           modelId := rows.modelId
           endpointId := rows.endpointId
           endpointUrl := res.endpointUrl
           deploymentStatus := res.deploymentStatus
           message := "Successfully deployed model from experiment " ++
             experimentId ++ ". Algorithm: " ++ res.algorithm ++
             ", Score: " ++ formatFixed4 res.modelScore ++
             ". Model registered as: " ++ rows.modelName ++ ":" ++
             rows.modelVersion },
     [.dbFlush, .dbFlush, .dbCommit])
  | .error dbError =>
    (.ok { deploymentId := placeholderUuid experimentId '0'
           modelId := placeholderUuid experimentId '1'
           endpointId := placeholderUuid experimentId '2'
           endpointUrl := res.endpointUrl
           deploymentStatus := res.deploymentStatus
           message := "Model deployed successfully from experiment " ++
             experimentId ++ ", but failed to create database records: " ++
             dbError ++ ". Algorithm: " ++ res.algorithm ++
             ", Score: " ++ formatFixed4 res.modelScore },
     [.dbRollback])

/-! ## Background endpoint monitoring (`tasks/background.py`
`collect_endpoint_metrics` and `main.py` `lifespan`) -/

/-- One observable step of the `collect_endpoint_metrics` coroutine. -/
inductive TaskAction where
  | listEndpoints
  | sleep (seconds : Nat)
  deriving Repr, DecidableEq

/-- One iteration of `while True: service.list_endpoints();
await asyncio.sleep(60)`. -/
def collectIteration : List TaskAction :=
  [.listEndpoints, .sleep 60]

/-- The first `n` iterations of the loop. -/
def collectTrace (n : Nat) : List TaskAction :=
  (List.replicate n collectIteration).flatten

/-- Seconds slept by an action. -/
def sleepSeconds : TaskAction → Nat
  | .listEndpoints => 0
  | .sleep s => s

/-- Seconds elapsed (in sleeps) before the `n`-th `list_endpoints` call:
each iteration opens with its listing call, so this is the total sleep
time of the first `n` iterations. -/
def timeOfListCall (n : Nat) : Nat :=
  ((collectTrace n).map sleepSeconds).sum

/-- `scheduler.add_job(collect_endpoint_metrics, "interval", minutes=5)`
in `main.py`: the scheduler starts a fresh run of the task every 300
seconds. -/
def schedulerIntervalSeconds : Nat := 5 * 60

/-! # Theorems -/

/-! ## Helper lemmas -/

theorem dictFind_dictSet (k k' : String) (v : Option MetaVal) (d : PyDict) :
    dictFind k (dictSet k' v d) =
      if k' = k then some v else dictFind k d := by
  induction d with
  | nil => simp [dictSet, dictFind]
  | cons kv rest ih =>
    obtain ⟨a, b⟩ := kv
    by_cases ha : a = k'
    · subst ha
      by_cases hk : a = k
      · subst hk; simp [dictSet, dictFind]
      · simp [dictSet, dictFind, hk, Ne.symm hk]
    · by_cases hk : a = k
      · subst hk
        simp [dictSet, dictFind, Ne.symm ha, ha]
      · simp [dictSet, dictFind, ha, hk, ih]

/-! ## C5 — the role gate on MAINTAINER-gated routes -/

/-- C5: on a MAINTAINER-gated route, a token whose resolved role is
`USER` is rejected with HTTP 403, while `MAINTAINER` and `ADMIN` pass
the gate; in general a resolved role passes a required role exactly when
its hierarchy level is `≥` the required level. -/
theorem maintainerGate_roleHierarchy (uid : String) (r required : UserRole) :
    (∃ d, requireRole .MAINTAINER (some ⟨uid, some "USER"⟩) =
      .httpError 403 d) ∧
    requireRole .MAINTAINER (some ⟨uid, some "MAINTAINER"⟩) = .ok () ∧
    requireRole .MAINTAINER (some ⟨uid, some "ADMIN"⟩) = .ok () ∧
    hasRole ⟨uid, some r.value⟩ required =
      .ok (decide (roleHierarchy r ≥ roleHierarchy required)) := by
  refine ⟨⟨_, rfl⟩, rfl, rfl, ?_⟩
  cases r <;> cases required <;> rfl

/-! ## C9 — a user with no resolved role fails every role check -/

/-- C9: when the role resolved from the database is `None`,
`UserInfo.has_role` returns `False` for every required role, so
`require_role` rejects the request with HTTP 403 no matter which role
the route demands. -/
theorem roleNone_alwaysRejected (uid : String) (required : UserRole) :
    hasRole ⟨uid, none⟩ required = .ok false ∧
    ∃ d, requireRole required (some ⟨uid, none⟩) = .httpError 403 d :=
  ⟨rfl, ⟨_, rfl⟩⟩

/-! ## C6 — parent-job metadata extraction is total and always carries
the experiment name -/

/-- C6: `extract_parent_job_metadata` never raises — it is a total
function of the fetch outcome (the whole body is inside `try/except`,
and every attribute probe is a `safe_getattr`, modelled by the `Option`
fields of `ParentJob`) — and the returned dictionary always contains
`experiment_name` bound to the requested parent job name, whether the
fetch succeeded or failed. -/
theorem extractParentJobMetadata_total_experimentName
    (parentJobName : String) (fetch : Except String ParentJob) :
    dictFind "experiment_name"
      (extractParentJobMetadata parentJobName fetch) =
      some (some (.obj parentJobName)) := by
  cases fetch with
  | error e => rfl
  | ok pj =>
    obtain ⟨st, task, limits, compute⟩ := pj
    cases task with
    | none =>
      cases limits <;>
        simp [extractParentJobMetadata, dictFind_dictSet, dictFind]
    | some t =>
      cases ht : t.trainingData <;> cases limits <;>
        simp [extractParentJobMetadata, dictFind_dictSet, dictFind, ht]

/-! ## C7 — the endpoint-monitoring cadence -/

theorem timeOfListCall_eq (n : Nat) : timeOfListCall n = 60 * n := by
  induction n with
  | zero => rfl
  | succ m ih =>
    simp only [timeOfListCall, collectTrace, List.replicate_succ,
      List.flatten_cons, List.map_append, List.sum_append] at ih ⊢
    simp [collectIteration, sleepSeconds] at ih ⊢
    omega

/-- C7, counterexample: the claim says 5 minutes (300 seconds) elapse
between consecutive `list_endpoints` calls of the task; in fact the
very first gap of the loop is 60 seconds, not 300. -/
theorem collectLoop_gap_is_60_not_300 :
    timeOfListCall 1 - timeOfListCall 0 = 60 ∧
    ¬ (timeOfListCall 1 - timeOfListCall 0 = 300) := by
  constructor
  · rfl
  · decide

/-- C7, amended: the scheduler in `lifespan` starts the task at a fixed
300-second interval, but within the task consecutive `list_endpoints`
calls are separated by `asyncio.sleep(60)`: every gap is 60 seconds. -/
theorem collectLoop_gap_amended (n : Nat) :
    timeOfListCall (n + 1) - timeOfListCall n = 60 ∧
    schedulerIntervalSeconds = 300 := by
  refine ⟨?_, rfl⟩
  simp only [timeOfListCall_eq]
  omega

/-! ## C2 — traffic-sum validation on the two traffic-update routes -/

/-- C2, counterexample: a traffic map summing to 80 posted to the
checking route (`update_deployment_traffic`) is rejected — but with
HTTP 500, not 400: the route's own `except Exception` catches the
`HTTPException(400, ...)` it just raised and re-raises it as a 500. -/
theorem badTrafficSum_is_500_not_400 :
    updateDeploymentTraffic "my-endpoint" [("blue", 50), ("green", 30)]
        (.ok [("blue", 50), ("green", 30)]) =
      .httpError 500 ("400" ++ ": " ++
        "Traffic allocation must sum to 100, got 80") ∧
    ¬ ((updateDeploymentTraffic "my-endpoint" [("blue", 50), ("green", 30)]
        (.ok [("blue", 50), ("green", 30)])).statusOf = some 400) := by
  constructor
  · rfl
  · decide

/-- C2, amended: on the checking route a traffic map whose percentages
do not sum to 100 is rejected — with HTTP status 500 (the internal 400
is swallowed by the route's blanket exception handler) — while the
other traffic-update route performs no sum check and accepts the same
map whenever the service call succeeds. -/
theorem trafficSum_check_asymmetry (en rn : String)
    (ta : List (String × Int))
    (svc : Except String (List (String × Int)))
    (svcU : List (String × Int) → Except String (List (String × Int)))
    (upd : List (String × Int))
    (hsum : (ta.map Prod.snd).sum ≠ 100)
    (hsvc : svcU ta = .ok upd) :
    (updateDeploymentTraffic en ta svc).statusOf = some 500 ∧
    updateTraffic (some ⟨some rn⟩) (.ok ta) svcU =
      .ok ⟨"Traffic allocation updated successfully", upd⟩ := by
  constructor
  · simp [updateDeploymentTraffic, hsum, RouteResult.statusOf]
  · simp [updateTraffic, hsvc]

/-- C2 witness: instantiating the amended theorem on the concrete
sum-80 map. -/
theorem trafficSum_check_asymmetry_witness :
    (updateDeploymentTraffic "ep" [("blue", 80)]
      (.ok [("blue", 80)])).statusOf = some 500 ∧
    updateTraffic (some ⟨some "azure-ep"⟩) (.ok [("blue", 80)])
        (fun t => .ok t) =
      .ok ⟨"Traffic allocation updated successfully", [("blue", 80)]⟩ :=
  trafficSum_check_asymmetry "ep" "azure-ep" [("blue", 80)]
    (.ok [("blue", 80)]) (fun t => .ok t) [("blue", 80)]
    (by decide) rfl

/-! ## C3 — database failure after a successful Azure deployment -/

/-- C3: when the Azure-side deployment succeeded and the database
persistence raises, the route rolls back only the database session —
no effect in its trace undoes the Azure deployment — and returns a
success `DeploymentResponse` (never an HTTP error) whose message
carries the database-failure warning. -/
theorem dbFailure_keeps_azure_and_warns (experimentId : String)
    (res : DeploymentResult) (dbError : String) :
    ∃ resp,
      (deployRoutePersist experimentId res (.error dbError)).1 = .ok resp ∧
      (∃ pre post, resp.message =
        pre ++ ", but failed to create database records: " ++ post) ∧
      PersistAction.azureUndoDeployment ∉
        (deployRoutePersist experimentId res (.error dbError)).2 ∧
      ∀ s d, (deployRoutePersist experimentId res (.error dbError)).1 ≠
        .httpError s d := by
  refine ⟨_, rfl,
    ⟨"Model deployed successfully from experiment " ++ experimentId,
     dbError ++ (". Algorithm: " ++ res.algorithm ++ ", Score: " ++
       formatFixed4 res.modelScore), ?_⟩,
    by simp [deployRoutePersist],
    by intro s d; simp [deployRoutePersist]⟩
  simp [deployRoutePersist, String.append_assoc]

/-! ## C8 — parsing of the `model_reference` string -/

theorem splitColon_ne_nil (l : List Char) : splitColon l ≠ [] := by
  cases l with
  | nil => simp [splitColon]
  | cons c cs =>
    simp only [splitColon]
    split
    · simp
    · split <;> simp

theorem splitColon_length (l : List Char) :
    (splitColon l).length = l.count ':' + 1 := by
  induction l with
  | nil => rfl
  | cons c cs ih =>
    simp only [splitColon]
    by_cases hc : c = ':'
    · subst hc
      simp [List.count_cons, ih]
    · rw [if_neg hc]
      cases h : splitColon cs with
      | nil => exact absurd h (splitColon_ne_nil cs)
      | cons p ps =>
        rw [h] at ih
        simp only [List.length_cons] at ih ⊢
        simp [List.count_cons, hc]
        omega

theorem splitColon_parts (l : List Char) :
    ∀ p ∈ splitColon l, ':' ∉ p := by
  induction l with
  | nil =>
    intro p hp
    simp [splitColon] at hp
    subst hp
    simp
  | cons c cs ih =>
    intro p hp
    simp only [splitColon] at hp
    by_cases hc : c = ':'
    · rw [if_pos hc] at hp
      rcases List.mem_cons.mp hp with rfl | hp'
      · simp
      · exact ih p hp'
    · rw [if_neg hc] at hp
      cases h : splitColon cs with
      | nil => exact absurd h (splitColon_ne_nil cs)
      | cons q qs =>
        rw [h] at hp
        rcases List.mem_cons.mp hp with rfl | hp'
        · intro hmem
          rcases List.mem_cons.mp hmem with hcc | hq
          · exact hc hcc.symm
          · exact ih q (by rw [h]; exact List.mem_cons_self q qs) hq
        · exact ih p (by rw [h]; exact List.mem_cons_of_mem q hp')

theorem joinColon_splitColon (l : List Char) :
    joinColon (splitColon l) = l := by
  induction l with
  | nil => rfl
  | cons c cs ih =>
    simp only [splitColon]
    by_cases hc : c = ':'
    · subst hc
      rw [if_pos rfl]
      cases h : splitColon cs with
      | nil => exact absurd h (splitColon_ne_nil cs)
      | cons q qs =>
        rw [h] at ih
        simp only [joinColon, List.nil_append]
        rw [ih]
    · rw [if_neg hc]
      cases h : splitColon cs with
      | nil => exact absurd h (splitColon_ne_nil cs)
      | cons q qs =>
        rw [h] at ih
        cases qs with
        | nil =>
          simp only [joinColon] at ih ⊢
          rw [ih]
        | cons q2 qs2 =>
          simp only [joinColon] at ih ⊢
          rw [List.cons_append, ih]

/-- C8: `create_or_update_model_record` derives the stored name and
version from `model_reference` by: no `:` — the whole string is the
name and the version is `"1"`; exactly one `:` — the two parts around
it are name and version; more than one `:` — the two-name unpacking of
the split raises `ValueError`. -/
theorem modelReference_parsing (ref : List Char) :
    (ref.count ':' = 0 → parseModelReference ref = .ok (ref, ['1'])) ∧
    (ref.count ':' = 1 → ∃ a b, ref = a ++ ':' :: b ∧ ':' ∉ a ∧ ':' ∉ b ∧
      parseModelReference ref = .ok (a, b)) ∧
    (2 ≤ ref.count ':' → ∃ e, parseModelReference ref = .error e) := by
  refine ⟨?_, ?_, ?_⟩
  · intro h0
    have hmem : ':' ∉ ref := List.count_eq_zero.mp h0
    simp [parseModelReference, List.elem_iff, hmem]
  · intro h1
    have hlen : (splitColon ref).length = 2 := by
      rw [splitColon_length, h1]
    obtain ⟨a, b, hab⟩ := List.length_eq_two.mp hlen
    have hj : a ++ ':' :: b = ref := by
      have hjoin := joinColon_splitColon ref
      rw [hab] at hjoin
      simpa [joinColon] using hjoin
    have hmem : ':' ∈ ref := by
      rw [← hj]
      simp
    refine ⟨a, b, hj.symm, ?_, ?_, ?_⟩
    · exact splitColon_parts ref a (by rw [hab]; simp)
    · exact splitColon_parts ref b (by rw [hab]; simp)
    · simp [parseModelReference, List.elem_iff, hmem, hab]
  · intro h2
    have hlen : 3 ≤ (splitColon ref).length := by
      rw [splitColon_length]
      omega
    have hmem : ':' ∈ ref := by
      by_contra hmm
      rw [List.count_eq_zero.mpr hmm] at h2
      omega
    cases hsp : splitColon ref with
    | nil => exact absurd hsp (splitColon_ne_nil ref)
    | cons x t =>
      cases t with
      | nil =>
        rw [hsp] at hlen
        simp at hlen
      | cons y t2 =>
        cases t2 with
        | nil =>
          rw [hsp] at hlen
          simp at hlen
        | cons z t3 =>
          refine ⟨"ValueError: not exactly two values to unpack", ?_⟩
          simp [parseModelReference, List.elem_iff, hmem, hsp]

/-- C8 witness: the three parsing behaviours at concrete references. -/
theorem modelReference_parsing_witness :
    ("mymodel".toList.count ':' = 0 ∧
      parseModelReference "mymodel".toList = .ok ("mymodel".toList, ['1'])) ∧
    ("automl-best-exp:3".toList.count ':' = 1 ∧
      ∃ a b, "automl-best-exp:3".toList = a ++ ':' :: b ∧ ':' ∉ a ∧
        ':' ∉ b ∧ parseModelReference "automl-best-exp:3".toList = .ok (a, b)) ∧
    (2 ≤ "m:1:2".toList.count ':' ∧
      ∃ e, parseModelReference "m:1:2".toList = .error e) :=
  ⟨⟨by decide, (modelReference_parsing _).1 (by decide)⟩,
   ⟨by decide, (modelReference_parsing _).2.1 (by decide)⟩,
   ⟨by decide, (modelReference_parsing _).2.2 (by decide)⟩⟩

/-! ## C1 — selection of the best-scoring child job -/

theorem getChildJobsWithScores_eq_sort (childJobs : List Job) :
    getChildJobsWithScores childJobs =
      (scoredJobs childJobs).insertionSort
        (fun a b => scoreKey b ≤ scoreKey a) := rfl

theorem insertionSortDesc_head (l : List JobInfo) (hne : l ≠ []) :
    ∃ z rest,
      l.insertionSort (fun a b => scoreKey b ≤ scoreKey a) = z :: rest ∧
      (∀ j ∈ l, scoreKey j ≤ scoreKey z) ∧
      ∃ l1 l2, l = l1 ++ z :: l2 ∧ ∀ j ∈ l1, scoreKey j < scoreKey z := by
  induction l with
  | nil => exact absurd rfl hne
  | cons x xs ih =>
    cases xs with
    | nil =>
      refine ⟨x, [], rfl, ?_, [], [], rfl, by simp⟩
      intro j hj
      rcases List.mem_cons.mp hj with rfl | hj'
      · exact le_refl _
      · simp at hj'
    | cons y ys =>
      obtain ⟨z, rest, hsort, hmax, l1, l2, hdecomp, hl1⟩ := ih (by simp)
      by_cases hz : scoreKey z ≤ scoreKey x
      · refine ⟨x, z :: rest, ?_, ?_, [], y :: ys, rfl, by simp⟩
        · show List.orderedInsert (fun a b => scoreKey b ≤ scoreKey a) x
            (List.insertionSort (fun a b => scoreKey b ≤ scoreKey a) (y :: ys)) =
            x :: z :: rest
          rw [hsort]
          simp [List.orderedInsert, hz]
        · intro j hj
          rcases List.mem_cons.mp hj with rfl | hj'
          · exact le_refl _
          · exact le_trans (hmax j hj') hz
      · have hlt : scoreKey x < scoreKey z := not_le.mp hz
        refine ⟨z, List.orderedInsert (fun a b => scoreKey b ≤ scoreKey a) x rest,
          ?_, ?_, x :: l1, l2, ?_, ?_⟩
        · show List.orderedInsert (fun a b => scoreKey b ≤ scoreKey a) x
            (List.insertionSort (fun a b => scoreKey b ≤ scoreKey a) (y :: ys)) = _
          rw [hsort]
          simp [List.orderedInsert, hz]
        · intro j hj
          rcases List.mem_cons.mp hj with rfl | hj'
          · exact le_of_lt hlt
          · exact hmax j hj'
        · rw [List.cons_append, ← hdecomp]
        · intro j hj
          rcases List.mem_cons.mp hj with rfl | hj'
          · exact hlt
          · exact hl1 j hj'

/-- C1: the deployment orchestrator selects, among the child jobs with a
recognized numeric score (scoreless jobs are filtered out), the
first-listed job of maximal score: the selected job belongs to the
scored list, its score is maximal, and every job listed before it has a
strictly smaller score; and on the spec's mocked list with scores
[0.7, 0.9, 0.8] the job scoring 0.9 is selected. -/
theorem bestJobSelection :
    (∀ (childJobs : List Job) (best : JobInfo),
      selectBestJob childJobs = some best →
        best ∈ scoredJobs childJobs ∧
        (∀ j ∈ scoredJobs childJobs, scoreKey j ≤ scoreKey best) ∧
        (∃ l1 l2, scoredJobs childJobs = l1 ++ best :: l2 ∧
          ∀ j ∈ l1, scoreKey j < scoreKey best)) ∧
    (∃ bi, selectBestJob exampleJobs = some bi ∧
      bi.name = some "job-b" ∧ bi.score = some 0.9) := by
  constructor
  · intro childJobs best h
    have hne : scoredJobs childJobs ≠ [] := by
      intro hnil
      rw [selectBestJob, getChildJobsWithScores_eq_sort, hnil] at h
      simp [List.insertionSort] at h
    obtain ⟨z, rest, hsort, hmax, l1, l2, hdecomp, hl1⟩ :=
      insertionSortDesc_head _ hne
    have hz : z = best := by
      rw [selectBestJob, getChildJobsWithScores_eq_sort, hsort] at h
      simpa using h
    subst hz
    refine ⟨?_, hmax, l1, l2, hdecomp, hl1⟩
    rw [hdecomp]
    exact List.mem_append_right _ (List.mem_cons_self _ _)
  · have hscored : scoredJobs exampleJobs =
        [⟨some "job-a", some "Completed", "unknown", some 0.7, [], some "automl"⟩,
         ⟨some "job-b", some "Completed", "unknown", some 0.9, [], some "automl"⟩,
         ⟨some "job-c", some "Completed", "unknown", some 0.8, [], some "automl"⟩] := by
      rfl
    have hsel : selectBestJob exampleJobs =
        some ⟨some "job-b", some "Completed", "unknown", some 0.9, [],
          some "automl"⟩ := by
      rw [selectBestJob, getChildJobsWithScores_eq_sort, hscored]
      norm_num [List.insertionSort, List.orderedInsert, scoreKey]
    exact ⟨_, hsel, rfl, rfl⟩

/-- C1 witness: the selection theorem applied to a concrete single-job
list, with its hypothesis discharged by evaluation. -/
theorem bestJobSelection_witness :
    soloInfo ∈ scoredJobs [soloJob] ∧
    (∀ j ∈ scoredJobs [soloJob], scoreKey j ≤ scoreKey soloInfo) ∧
    (∃ l1 l2, scoredJobs [soloJob] = l1 ++ soloInfo :: l2 ∧
      ∀ j ∈ l1, scoreKey j < scoreKey soloInfo) :=
  (bestJobSelection).1 [soloJob] soloInfo rfl

/-! ## C4 — the candidate artifact paths of model registration -/

/-- C4, counterexample: when every registration call fails, the error is
raised after exactly two attempted candidate paths — the MLflow-model
subpath and the whole outputs directory, both `azureml://` datastore
URIs.  No third, local-filesystem candidate is attempted, contrary to
the claim's three-path sequence. -/
theorem registerModel_noLocalFallback :
    (registerModelFromJob ⟨"sub", "rg", "ws"⟩ (fun _ => .error "down")
      0 0 "job1" "model1" [] []).2.length = 2 ∧
    (∃ e, (registerModelFromJob ⟨"sub", "rg", "ws"⟩ (fun _ => .error "down")
      0 0 "job1" "model1" [] []).1 = .error e) ∧
    ∀ p ∈ (registerModelFromJob ⟨"sub", "rg", "ws"⟩ (fun _ => .error "down")
      0 0 "job1" "model1" [] []).2, ∃ rest, p = "azureml://" ++ rest := by
  refine ⟨rfl, ⟨_, rfl⟩, ?_⟩
  intro p hp
  rw [show (registerModelFromJob ⟨"sub", "rg", "ws"⟩ (fun _ => .error "down")
      0 0 "job1" "model1" [] []).2 =
    [buildModelUri ⟨"sub", "rg", "ws"⟩ "job1" "/mlflow-model",
     buildModelUri ⟨"sub", "rg", "ws"⟩ "job1"] from rfl] at hp
  rcases List.mem_cons.mp hp with rfl | hp'
  · exact ⟨"subscriptions/sub/resourceGroups/rg/workspaces/ws/datastores/workspaceartifactstore/paths/ExperimentRun/dcid.job1/outputs/mlflow-model", rfl⟩
  rcases List.mem_cons.mp hp' with rfl | hp''
  · exact ⟨"subscriptions/sub/resourceGroups/rg/workspaces/ws/datastores/workspaceartifactstore/paths/ExperimentRun/dcid.job1/outputs", rfl⟩
  simp at hp''

/-- C4, amended: model registration tries the MLflow-model subpath
first and the whole outputs directory second — there is no local
filesystem fallback.  The first registration call that succeeds wins
and the remaining alternative is not tried; an error is raised only
when both candidates fail. -/
theorem registerModel_firstSuccessWins (st : AzureSettings)
    (reg : ModelSpec → Except String RegisteredModel)
    (nowBase nowCreate : ℕ) (jobName modelName : String)
    (p m : PyDict) (desc : String)
    (hdesc : formatModelDescription p m = .ok desc) :
    (∀ rm, reg (mlflowModelSpec st jobName modelName
        (createModelTagsFromMetadata nowBase nowCreate p m) desc) = .ok rm →
      registerModelFromJob st reg nowBase nowCreate jobName modelName p m =
        (.ok (rm.name ++ ":" ++ rm.version),
         [buildModelUri st jobName "/mlflow-model"])) ∧
    (∀ e1 rm, reg (mlflowModelSpec st jobName modelName
        (createModelTagsFromMetadata nowBase nowCreate p m) desc) = .error e1 →
      reg (outputsModelSpec st jobName modelName
        (createModelTagsFromMetadata nowBase nowCreate p m) desc) = .ok rm →
      registerModelFromJob st reg nowBase nowCreate jobName modelName p m =
        (.ok (rm.name ++ ":" ++ rm.version),
         [buildModelUri st jobName "/mlflow-model", buildModelUri st jobName])) ∧
    (∀ e1 e2, reg (mlflowModelSpec st jobName modelName
        (createModelTagsFromMetadata nowBase nowCreate p m) desc) = .error e1 →
      reg (outputsModelSpec st jobName modelName
        (createModelTagsFromMetadata nowBase nowCreate p m) desc) = .error e2 →
      ∃ e, registerModelFromJob st reg nowBase nowCreate jobName modelName p m =
        (.error e,
         [buildModelUri st jobName "/mlflow-model", buildModelUri st jobName])) := by
  refine ⟨?_, ?_, ?_⟩
  · intro rm h1
    simp [registerModelFromJob, hdesc, handleAzureOperation, h1]
  · intro e1 rm h1 h2
    simp [registerModelFromJob, hdesc, handleAzureOperation, h1, h2]
  · intro e1 e2 h1 h2
    simp only [registerModelFromJob, hdesc, handleAzureOperation, h1, h2]
    exact ⟨_, rfl⟩

/-- C4 witness: the amended theorem applied with a concrete oracle that
fails on the MLflow path and succeeds on the outputs path. -/
theorem registerModel_firstSuccessWins_witness :
    (fun s => if s.type = "mlflow_model" then
        (.error "NotFound" : Except String RegisteredModel)
      else .ok ⟨"model1", "3"⟩)
      (outputsModelSpec ⟨"sub", "rg", "ws"⟩ "job1" "model1"
        (createModelTagsFromMetadata 0 0 [] []) "AutoML model from experiment 'unknown'") =
      .ok ⟨"model1", "3"⟩ ∧
    registerModelFromJob ⟨"sub", "rg", "ws"⟩
      (fun s => if s.type = "mlflow_model" then .error "NotFound"
        else .ok ⟨"model1", "3"⟩) 0 0 "job1" "model1" [] [] =
      (.ok ("model1" ++ ":" ++ "3"),
       [buildModelUri ⟨"sub", "rg", "ws"⟩ "job1" "/mlflow-model",
        buildModelUri ⟨"sub", "rg", "ws"⟩ "job1"]) :=
  ⟨rfl,
   ((registerModel_firstSuccessWins ⟨"sub", "rg", "ws"⟩
      (fun s => if s.type = "mlflow_model" then .error "NotFound"
        else .ok ⟨"model1", "3"⟩) 0 0 "job1" "model1" [] []
      "AutoML model from experiment 'unknown'" rfl).2.1
    "NotFound" ⟨"model1", "3"⟩ rfl rfl)⟩

/-! ## C10 — size and truncation invariants of the tag builders -/

theorem length_asString (l : List Char) : (List.asString l).length = l.length :=
  rfl

theorem pyTrunc256_length (s : String) : (pyTrunc256 s).length ≤ 256 := by
  simp only [pyTrunc256, length_asString, List.length_take]
  exact min_le_left _ _

theorem tagSet_length_le (k v : String) (t : List (String × String)) :
    (tagSet k v t).length ≤ t.length + 1 := by
  induction t with
  | nil => simp [tagSet]
  | cons ab rest ih =>
    obtain ⟨a, b⟩ := ab
    simp only [tagSet]
    split
    · simp
    · simpa using Nat.succ_le_succ ih

theorem mem_tagSet (k v : String) (t : List (String × String)) :
    ∀ kv ∈ tagSet k v t, (kv.1 = k ∧ kv.2 = v) ∨ kv ∈ t := by
  induction t with
  | nil =>
    intro kv hkv
    simp [tagSet] at hkv
    left
    simp [hkv]
  | cons ab rest ih =>
    obtain ⟨a, b⟩ := ab
    intro kv hkv
    simp only [tagSet] at hkv
    by_cases ha : a = k
    · rw [if_pos ha] at hkv
      rcases List.mem_cons.mp hkv with rfl | h'
      · left
        exact ⟨ha, rfl⟩
      · right
        exact List.mem_cons_of_mem _ h'
    · rw [if_neg ha] at hkv
      rcases List.mem_cons.mp hkv with rfl | h'
      · right
        exact List.mem_cons_self _ _
      · rcases ih kv h' with h | h
        · left
          exact h
        · right
          exact List.mem_cons_of_mem _ h

theorem foldl_invariant {α β : Type} (P : α → Prop) (f : α → β → α)
    (l : List β) (h : ∀ a b, b ∈ l → P a → P (f a b)) :
    ∀ a, P a → P (l.foldl f a) := by
  induction l with
  | nil =>
    intro a ha
    exact ha
  | cons b bs ih =>
    intro a ha
    exact ih (fun a' b' hb' ha' => h a' b' (List.mem_cons_of_mem b hb') ha')
      (f a b) (h a b (List.mem_cons_self b bs) ha)

/-- C10, amended: both tag builders produce at most 10 entries and never
add an entry for a `None` value; in the generic builder every
caller-supplied value is truncated to at most 256 characters, and in the
model-tag builder every non-float value is so truncated — but a float
value is formatted as `%.4f` without truncation. -/
theorem tagBuilders_invariants (now nowBase nowCreate : ℕ)
    (kwargs : List (String × Option MetaVal)) (p m : PyDict) :
    (createTags now kwargs).length ≤ 10 ∧
    (∀ kv ∈ createTags now kwargs,
      kv ∈ [("created_by", "automl_service"),
            ("deployment_timestamp", Nat.repr now)] ∨ kv.2.length ≤ 256) ∧
    (∀ kv ∈ createTags now kwargs,
      kv.1 ∈ ["created_by", "deployment_timestamp"] ∨
        ∃ mv, (kv.1, some mv) ∈ kwargs) ∧
    (createModelTagsFromMetadata nowBase nowCreate p m).length ≤ 10 ∧
    (∀ kv ∈ createModelTagsFromMetadata nowBase nowCreate p m,
      kv.1 ∈ ["created_by", "deployment_timestamp"] ∨
        (∃ q r, (kv.1, some (.flt q r)) ∈ importantFields p m ∧
          kv.2 = formatFixed4 q) ∨ kv.2.length ≤ 256) ∧
    (∀ kv ∈ createModelTagsFromMetadata nowBase nowCreate p m,
      kv.1 ∈ ["created_by", "deployment_timestamp"] ∨
        ∃ mv, (kv.1, some mv) ∈ importantFields p m) := by
  have hunfold : ∀ (n : ℕ) (kw : List (String × Option MetaVal)),
      createTags n kw = kw.foldl
        (fun tags kv =>
          match kv.2 with
          | none => tags
          | some v =>
            if tags.length < 10 then
              tagSet kv.1 (pyTrunc256 v.pyStr) tags
            else tags)
        [("created_by", "automl_service"),
         ("deployment_timestamp", Nat.repr n)] := fun _ _ => rfl
  have hunfold2 : createModelTagsFromMetadata nowBase nowCreate p m =
      (importantFields p m).foldl
        (fun tags kv =>
          match kv.2 with
          | none => tags
          | some v =>
            if tags.length < 10 then
              tagSet kv.1
                (match v with
                 | .flt q _ => formatFixed4 q
                 | .obj r => pyTrunc256 r)
                tags
            else tags)
        (createTags nowCreate
          [("deployment_timestamp", some (.obj (Nat.repr nowBase)))]) := rfl
  have hlen : ∀ (n : ℕ) (kw : List (String × Option MetaVal)),
      (createTags n kw).length ≤ 10 := by
    intro n kw
    rw [hunfold]
    refine foldl_invariant (fun t : List (String × String) => t.length ≤ 10) _ kw ?_ _ (by simp)
    intro t kv _ ht
    cases hv : kv.2 with
    | none => simpa [hv] using ht
    | some v =>
      simp only [hv]
      split
      · calc (tagSet kv.1 (pyTrunc256 v.pyStr) t).length ≤ t.length + 1 :=
              tagSet_length_le _ _ _
          _ ≤ 10 := by omega
      · exact ht
  have hkeys : ∀ (n : ℕ) (kw : List (String × Option MetaVal)),
      ∀ kv ∈ createTags n kw,
        kv.1 ∈ ["created_by", "deployment_timestamp"] ∨
          ∃ mv, (kv.1, some mv) ∈ kw := by
    intro n kw
    rw [hunfold]
    refine foldl_invariant
      (fun t : List (String × String) => ∀ kv ∈ t,
        kv.1 ∈ ["created_by", "deployment_timestamp"] ∨
          ∃ mv, (kv.1, some mv) ∈ kw) _ kw ?_ _ ?_
    · intro t b hb ht kv hkv
      obtain ⟨k, mval⟩ := b
      cases hmv : mval with
      | none =>
        rw [hmv] at hkv
        exact ht kv hkv
      | some v =>
        rw [hmv] at hkv
        simp only at hkv
        split at hkv
        · rcases mem_tagSet _ _ _ kv hkv with ⟨hk1, _⟩ | hmem
          · right
            refine ⟨v, ?_⟩
            rw [hk1]
            rw [hmv] at hb
            exact hb
          · exact ht kv hmem
        · exact ht kv hkv
    · intro kv hkv
      left
      rcases List.mem_cons.mp hkv with rfl | h'
      · simp
      rcases List.mem_cons.mp h' with rfl | h''
      · simp
      simp at h''
  refine ⟨hlen now kwargs, ?_, hkeys now kwargs, ?_, ?_, ?_⟩
  · rw [hunfold]
    refine foldl_invariant
      (fun t : List (String × String) => ∀ kv ∈ t,
        kv ∈ [("created_by", "automl_service"),
              ("deployment_timestamp", Nat.repr now)] ∨ kv.2.length ≤ 256)
      _ kwargs ?_ _ ?_
    · intro t b _ ht kv hkv
      obtain ⟨k, mval⟩ := b
      cases hmv : mval with
      | none =>
        rw [hmv] at hkv
        exact ht kv hkv
      | some v =>
        rw [hmv] at hkv
        simp only at hkv
        split at hkv
        · rcases mem_tagSet _ _ _ kv hkv with ⟨_, hv2⟩ | hmem
          · right
            rw [hv2]
            exact pyTrunc256_length _
          · exact ht kv hmem
        · exact ht kv hkv
    · intro kv hkv
      left
      exact hkv
  · rw [hunfold2]
    refine foldl_invariant
      (fun t : List (String × String) => t.length ≤ 10) _ _ ?_ _
      (hlen nowCreate _)
    intro t kv _ ht
    cases hv : kv.2 with
    | none => simpa [hv] using ht
    | some v =>
      simp only [hv]
      split
      · calc (tagSet kv.1 _ t).length ≤ t.length + 1 := tagSet_length_le _ _ _
          _ ≤ 10 := by omega
      · exact ht
  · rw [hunfold2]
    refine foldl_invariant
      (fun t : List (String × String) => ∀ kv ∈ t,
        kv.1 ∈ ["created_by", "deployment_timestamp"] ∨
          (∃ q r, (kv.1, some (.flt q r)) ∈ importantFields p m ∧
            kv.2 = formatFixed4 q) ∨ kv.2.length ≤ 256)
      _ _ ?_ _ ?_
    · intro t b hb ht kv hkv
      obtain ⟨k, mval⟩ := b
      cases hmv : mval with
      | none =>
        rw [hmv] at hkv
        exact ht kv hkv
      | some v =>
        rw [hmv] at hkv
        simp only at hkv
        split at hkv
        · rcases mem_tagSet _ _ _ kv hkv with ⟨hk1, hv2⟩ | hmem
          · cases v with
            | flt q r =>
              right
              left
              refine ⟨q, r, ?_, by simpa using hv2⟩
              rw [hk1]
              rw [hmv] at hb
              exact hb
            | obj r =>
              right
              right
              simp only at hv2
              rw [hv2]
              exact pyTrunc256_length _
          · exact ht kv hmem
        · exact ht kv hkv
    · intro kv hkv
      rcases hkeys nowCreate
          [("deployment_timestamp", some (.obj (Nat.repr nowBase)))] kv hkv with
        h | ⟨mv, hmv⟩
      · left
        exact h
      · left
        simp at hmv
        simp [hmv.1]
  · rw [hunfold2]
    refine foldl_invariant
      (fun t : List (String × String) => ∀ kv ∈ t,
        kv.1 ∈ ["created_by", "deployment_timestamp"] ∨
          ∃ mv, (kv.1, some mv) ∈ importantFields p m)
      _ _ ?_ _ ?_
    · intro t b hb ht kv hkv
      obtain ⟨k, mval⟩ := b
      cases hmv : mval with
      | none =>
        rw [hmv] at hkv
        exact ht kv hkv
      | some v =>
        rw [hmv] at hkv
        simp only at hkv
        split at hkv
        · rcases mem_tagSet _ _ _ kv hkv with ⟨hk1, _⟩ | hmem
          · right
            refine ⟨v, ?_⟩
            rw [hk1]
            rw [hmv] at hb
            exact hb
          · exact ht kv hmem
        · exact ht kv hkv
    · intro kv hkv
      rcases hkeys nowCreate
          [("deployment_timestamp", some (.obj (Nat.repr nowBase)))] kv hkv with
        h | ⟨mv, hmv⟩
      · left
        exact h
      · left
        simp at hmv
        simp [hmv.1]

theorem roundHalfEven_pow : roundHalfEven ((10 : ℚ) ^ 304) = (10 : ℤ) ^ 304 := by
  have hcast : ((10 : ℚ) ^ 304) = (((10 : ℤ) ^ 304 : ℤ) : ℚ) := by
    push_cast
    ring
  rw [hcast]
  unfold roundHalfEven
  rw [Int.fract_intCast, Int.floor_intCast]
  norm_num

theorem formatFixed4_pow300 :
    formatFixed4 ((10 : ℚ) ^ 300) =
      (if ((10 : ℚ) ^ 300) < 0 then "-" else "") ++
        Nat.repr (10 ^ 300) ++ "." ++ pad4 0 := by
  have habs : |((10 : ℚ) ^ 300)| = (10 : ℚ) ^ 300 := abs_of_nonneg (by positivity)
  have hmul : ((10 : ℚ) ^ 300) * 10000 = (10 : ℚ) ^ 304 := by
    rw [show (10000 : ℚ) = 10 ^ 4 by norm_num, ← pow_add]
  have hn : (roundHalfEven (|((10 : ℚ) ^ 300)| * 10000)).toNat = 10 ^ 304 := by
    rw [habs, hmul, roundHalfEven_pow,
      show ((10 : ℤ) ^ 304) = ((10 ^ 304 : ℕ) : ℤ) by push_cast; ring,
      Int.toNat_natCast]
  have hdiv : (10 ^ 304 : ℕ) / 10000 = 10 ^ 300 := by
    rw [show (10000 : ℕ) = 10 ^ 4 by norm_num,
      Nat.pow_div (by norm_num) (by norm_num)]
  have hmod : (10 ^ 304 : ℕ) % 10000 = 0 := by
    have hdvd : (10000 : ℕ) ∣ 10 ^ 304 :=
      ⟨10 ^ 300, by rw [show (10000 : ℕ) = 10 ^ 4 by norm_num, ← pow_add]⟩
    omega
  simp only [formatFixed4]
  rw [hn, hdiv, hmod]

set_option maxRecDepth 8000 in
theorem formatFixed4_pow300_length :
    (formatFixed4 ((10 : ℚ) ^ 300)).length = 306 := by
  rw [formatFixed4_pow300, if_neg (not_lt.mpr (by positivity))]
  rfl

/-- C10, counterexample: in the model-tag builder a float metadata value
is formatted with `f"{value:.4f}"` and *not* truncated to 256
characters: a `best_score` float of `1e300` produces a tag value of
length 306. -/
theorem modelTag_floatValue_not_truncated :
    ("best_score", formatFixed4 ((10 : ℚ) ^ 300)) ∈
      createModelTagsFromMetadata 0 0 []
        [("best_score", some (.flt ((10 : ℚ) ^ 300) "1e+300"))] ∧
    (formatFixed4 ((10 : ℚ) ^ 300)).length = 306 ∧
    256 < (formatFixed4 ((10 : ℚ) ^ 300)).length := by
  refine ⟨?_, formatFixed4_pow300_length, ?_⟩
  · rw [show createModelTagsFromMetadata 0 0 []
        [("best_score", some (.flt ((10 : ℚ) ^ 300) "1e+300"))] =
      [("created_by", "automl_service"),
       ("deployment_timestamp", pyTrunc256 "0"),
       ("best_score", formatFixed4 ((10 : ℚ) ^ 300))] from rfl]
    simp
  · rw [formatFixed4_pow300_length]
    norm_num

/-! ## Instantiation witnesses -/

/-- C5 witness: the gate evaluated at a concrete user. -/
theorem maintainerGate_roleHierarchy_witness :
    (∃ d, requireRole .MAINTAINER (some ⟨"u1", some "USER"⟩) =
      .httpError 403 d) ∧
    requireRole .MAINTAINER (some ⟨"u1", some "MAINTAINER"⟩) = .ok () ∧
    requireRole .MAINTAINER (some ⟨"u1", some "ADMIN"⟩) = .ok () ∧
    hasRole ⟨"u1", some UserRole.USER.value⟩ .MAINTAINER =
      .ok (decide (roleHierarchy .USER ≥ roleHierarchy .MAINTAINER)) :=
  maintainerGate_roleHierarchy "u1" .USER .MAINTAINER

/-- C9 witness: a roleless user against the ADMIN requirement. -/
theorem roleNone_alwaysRejected_witness :
    hasRole ⟨"u1", none⟩ .ADMIN = .ok false ∧
    ∃ d, requireRole .ADMIN (some ⟨"u1", none⟩) = .httpError 403 d :=
  roleNone_alwaysRejected "u1" .ADMIN

/-- C6 witness: metadata extraction when the job fetch itself fails. -/
theorem extractParentJobMetadata_witness :
    dictFind "experiment_name"
      (extractParentJobMetadata "exp-1" (.error "connection reset")) =
      some (some (.obj "exp-1")) :=
  extractParentJobMetadata_total_experimentName "exp-1"
    (.error "connection reset")

/-- C7 witness: the first gap of the loop and the scheduler interval. -/
theorem collectLoop_gap_amended_witness :
    timeOfListCall (0 + 1) - timeOfListCall 0 = 60 ∧
    schedulerIntervalSeconds = 300 :=
  collectLoop_gap_amended 0

/-- C3 witness: the warning response at a concrete failed persistence. -/
theorem dbFailure_keeps_azure_and_warns_witness :
    ∃ resp,
      (deployRoutePersist "11111111-2222-3333-4444-555555555555"
        ⟨"m:1", "ep", "dep-1", "https://ep", 0.9, "XGBoost", "Succeeded"⟩
        (.error "IntegrityError")).1 = .ok resp ∧
      (∃ pre post, resp.message =
        pre ++ ", but failed to create database records: " ++ post) ∧
      PersistAction.azureUndoDeployment ∉
        (deployRoutePersist "11111111-2222-3333-4444-555555555555"
          ⟨"m:1", "ep", "dep-1", "https://ep", 0.9, "XGBoost", "Succeeded"⟩
          (.error "IntegrityError")).2 ∧
      ∀ s d, (deployRoutePersist "11111111-2222-3333-4444-555555555555"
        ⟨"m:1", "ep", "dep-1", "https://ep", 0.9, "XGBoost", "Succeeded"⟩
        (.error "IntegrityError")).1 ≠ .httpError s d :=
  dbFailure_keeps_azure_and_warns "11111111-2222-3333-4444-555555555555"
    ⟨"m:1", "ep", "dep-1", "https://ep", 0.9, "XGBoost", "Succeeded"⟩
    "IntegrityError"

/-- C10 witness: the size bound of the generic builder at a concrete
call. -/
theorem tagBuilders_invariants_witness :
    (createTags 0 [("task_type", some (.obj "classification"))]).length ≤ 10 :=
  (tagBuilders_invariants 0 0 0
    [("task_type", some (.obj "classification"))] [] []).1

end AutoML
